import Mathlib

/-!
# HID controller backend (`controllers/hid/hidcontroller.cpp`)

A shallow embedding of `HidReader` and `HidController`.

* C++ pointers are `Option`s (`none` is `NULL`); a non-null `hid_device*` is a `Handle`.
* `unsigned short` fields are `Nat`, `int` fields are `Int`; every comparison in the source
  promotes both sides to `int`, so it is a comparison of the mathematical values.
* A `QByteArray` is the list of its bytes, each a `Nat` below 256.
* Calls that leave the class (the hidapi driver, the engine hooks of the base class, the
  reader thread, the Qt log) are recorded, in program order, as a list of `Effect`s.
* What the environment answers (the driver's return values, the value of `m_stop` seen by the
  reader thread, the result of `QString::toInt`) is an argument of the embedded function.

The device name and the UID computed at the end of the constructor (lines 90-106) are display
strings only and are not part of the embedding.
-/

namespace Hid

/-! ## Data model -/

/-- A non-null `hid_device*`. -/
abbrev Handle := Nat

/-- The bytes of a `QByteArray`. -/
abbrev QByteArray := List Nat

/-- The fields of hidapi's `struct hid_device_info` read by the constructor.  The three
wide-string pointers may be `NULL`. -/
structure hid_device_info where
  path : String
  vendor_id : Nat
  product_id : Nat
  serial_number : Option String
  manufacturer_string : Option String
  product_string : Option String
  usage_page : Nat
  usage : Nat
  interface_number : Int
deriving DecidableEq, Repr

/-- The state of a `HidReader`: the device pointer handed to its constructor. -/
structure HidReader where
  m_pHidDevice : Option Handle
deriving DecidableEq, Repr

/-- The members of `HidController` (with the two flags of its base class `Controller`). -/
structure HidController where
  hid_interface_number : Int
  hid_vendor_id : Nat
  hid_product_id : Nat
  hid_usage_page : Nat
  hid_usage : Nat
  hid_path : String
  hid_serial : String
  hid_manufacturer : String
  hid_product : String
  m_sDeviceCategory : String
  m_bIsOpen : Bool
  m_bDebug : Bool
  m_pHidDevice : Option Handle
  m_pReader : Option HidReader
deriving DecidableEq, Repr

/-- Modelled from the spec: `Controller::isOpen()` is declared in `controllers/controller.h`,
which is absent; it reads the state of section 4.3, `Open` (true) or `Closed` (false). -/
def HidController.isOpen (self : HidController) : Bool :=
  self.m_bIsOpen

/-- Modelled from the spec: `Controller::setOpen(bool)` is declared in the absent
`controllers/controller.h`; it sets the state of section 4.3. -/
def HidController.setOpen (self : HidController) (open_ : Bool) : HidController :=
  { self with m_bIsOpen := open_ }

/-- Modelled from the spec: `Controller::debugging()` is declared in the absent
`controllers/controller.h`; it gates the optional diagnostics. -/
def HidController.debugging (self : HidController) : Bool :=
  self.m_bDebug

/-- Modelled from the spec: the constructor of the base class `Controller` is absent; section
4.3 has "Initial: `Closed`". -/
def Controller.initiallyOpen : Bool :=
  false

/-- The messages written with `qWarning()`. -/
inductive Warning where
  | unableToOpenSpecific
  | unableToOpen
  | readerAlreadyPresent
  | readerNotPresent
  | unableToSend
deriving DecidableEq, Repr

/-- One call that leaves `HidController`, with its arguments (and, for the open calls of the
driver, its result).  The reader calls act on `m_pReader`: `newHidReader` is
`new HidReader(m_pHidDevice)`, `connectReader` and `disconnectReader` are the `connect` and
`disconnect` of its signal `incomingData`, `startReader` is `start(QThread::HighPriority)`,
`stopReader` is `stop()` (which sets the stop flag), `waitReader` is `wait()` and
`deleteReader` is `delete m_pReader`. -/
inductive Effect where
  | qDebug
  | qWarning (w : Warning)
  | hid_open_path (path : String) (result : Option Handle)
  | hid_open (vendor_id product_id : Nat) (serial_number : Option String)
      (result : Option Handle)
  | setOpen (open_ : Bool)
  | startEngine
  | stopEngine
  | newHidReader (device : Option Handle)
  | setObjectName
  | connectReader
  | startReader
  | disconnectReader
  | stopReader
  | hid_set_nonblocking (device : Option Handle) (nonblock : Int)
  | waitReader
  | deleteReader
  | hid_close (device : Option Handle)
  | hid_write (device : Option Handle) (data : QByteArray)
  | hid_error (device : Option Handle)
deriving DecidableEq, Repr

/-- What a member function hands back: its return value, the controller afterwards and the
calls it made, in order. -/
structure Outcome where
  ret : Int
  ctl : HidController
  effects : List Effect
deriving DecidableEq, Repr

/-! ## Formatting -/

/-- The conversion `%0x` of `QString::sprintf` applied to a non-negative value: lowercase
hexadecimal digits, no padding (the flag `0` has no effect without a field width). -/
def hexLower (n : Nat) : String :=
  String.mk (Nat.toDigits 16 n)

/-- The conversion `%0x` applied to an `int`: the argument is read as a 32-bit unsigned
value. -/
def hexLowerInt (i : Int) : String :=
  hexLower (i % 2 ^ 32).toNat

/-! ## `HidController::guessDeviceCategory` (lines 160-197) -/

/-- The string `info` that `guessDeviceCategory` builds from the members it reads. -/
def categoryInfo (hid_interface_number : Int)
    (hid_vendor_id hid_product_id hid_usage_page hid_usage : Nat) : String :=
  if hid_interface_number = -1 then
    if hid_usage_page = 0x1 then
      match hid_usage with
      | 0x2 => "Generic HID Mouse"
      | 0x4 => "Generic HID Joystick"
      | 0x5 => "Generic HID Gamepad"
      | 0x6 => "Generic HID Keyboard"
      | 0x8 => "Gereric HID Multiaxis Controller"
      | _ =>
        "Unknown HID Desktop Device 0x" ++ hexLower hid_usage_page ++ "/0x" ++ hexLower hid_usage
    else if hid_vendor_id = 0x5ac then
      if hid_product_id = 0x8242 then
        "HID Infrared Control"
      else
        "Unknown Apple HID Device 0x" ++ hexLower hid_usage_page ++ "/0x" ++ hexLower hid_usage
    else
      "HID Unknown Device 0x" ++ hexLower hid_usage_page ++ "/0x" ++ hexLower hid_usage
  else
    "HID Interface Number 0x" ++ hexLowerInt hid_interface_number

/-- The member function `guessDeviceCategory`: it ends with `setDeviceCategory(info)`. -/
def HidController.guessDeviceCategory (self : HidController) : HidController :=
  { self with
    m_sDeviceCategory :=
      categoryInfo self.hid_interface_number self.hid_vendor_id self.hid_product_id
        self.hid_usage_page self.hid_usage }

/-! ## `HidController::HidController` (lines 40-112) -/

/-- The constructor.  `debug` is the diagnostics flag of the base class and `uninit` is the
indeterminate initial value of `m_pHidDevice`, which no line of the constructor assigns.
`wcslen` of a `NULL` manufacturer or product string does not return (lines 78-86): the
result is `none`. -/
def HidController.new (deviceInfo : hid_device_info) (debug : Bool)
    (uninit : Option Handle) : Option HidController :=
  let hid_vendor_id := deviceInfo.vendor_id
  let hid_product_id := deviceInfo.product_id
  let addressing : Nat × Nat × Int :=
    if deviceInfo.interface_number = -1 then
      (deviceInfo.usage_page, deviceInfo.usage, -1)
    else
      (0, 0, deviceInfo.interface_number)
  let hid_usage_page := addressing.1
  let hid_usage := addressing.2.1
  let hid_interface_number := addressing.2.2
  let hid_path := deviceInfo.path
  let hid_serial :=
    match deviceInfo.serial_number with
    | some s => s
    | none => ""
  match deviceInfo.manufacturer_string, deviceInfo.product_string with
  | some hid_manufacturer, some hid_product =>
    some <| HidController.guessDeviceCategory
      { hid_interface_number := hid_interface_number
        hid_vendor_id := hid_vendor_id
        hid_product_id := hid_product_id
        hid_usage_page := hid_usage_page
        hid_usage := hid_usage
        hid_path := hid_path
        hid_serial := hid_serial
        hid_manufacturer := hid_manufacturer
        hid_product := hid_product
        m_sDeviceCategory := ""
        m_bIsOpen := Controller.initiallyOpen
        m_bDebug := debug
        m_pHidDevice := uninit
        m_pReader := none }
  | _, _ => none

/-! ## `HidController::matchProductInfo` (lines 137-159) -/

/-- A `QHash<QString,QString>`: the value stored under each key, if any. -/
abbrev QHash := String → Option String

/-- The non-const `QHash::operator[]`: the value under `key`; a key that is absent is first
inserted with a default-constructed (empty) `QString`. -/
def QHash.index (info : QHash) (key : String) : String × QHash :=
  match info key with
  | some value => (value, info)
  | none => ("", fun k => if k = key then some "" else info k)

/-- The member function `matchProductInfo`.  `toInt s` stands for `s.toInt(&ok, 16)`: it is
`none` when Qt sets `ok` to false and the converted value otherwise. -/
def HidController.matchProductInfo (toInt : String → Option Int) (self : HidController)
    (info : QHash) : Bool :=
  -- Product and vendor match is always required
  let (s, info) := QHash.index info "vendor_id"
  match toInt s with
  | none => false
  | some value =>
  if (self.hid_vendor_id : Int) ≠ value then false else
  let (s, info) := QHash.index info "product_id"
  match toInt s with
  | none => false
  | some value =>
  if (self.hid_product_id : Int) ≠ value then false else
  -- Optionally check against interface_number / usage_page && usage
  if self.hid_interface_number ≠ -1 then
    let (s, _) := QHash.index info "interface_number"
    match toInt s with
    | none => false
    | some value =>
    if self.hid_interface_number ≠ value then false else
    true
  else
    let (s, info) := QHash.index info "usage_page"
    match toInt s with
    | none => false
    | some value =>
    if (self.hid_usage_page : Int) ≠ value then false else
    let (s, _) := QHash.index info "usage"
    match toInt s with
    | none => false
    | some value =>
    if (self.hid_usage : Int) ≠ value then false else
    true

/-- The value of one hexadecimal digit. -/
def hexDigitValue (c : Char) : Option Nat :=
  if '0' ≤ c ∧ c ≤ '9' then some (c.toNat - '0'.toNat)
  else if 'a' ≤ c ∧ c ≤ 'f' then some (c.toNat - 'a'.toNat + 10)
  else if 'A' ≤ c ∧ c ≤ 'F' then some (c.toNat - 'A'.toNat + 10)
  else none

/-- A reader of plain hexadecimal digit strings, used to run `matchProductInfo` on concrete
criteria: it fails on the empty string and on any character that is not a digit. -/
def parseHexDigits (s : String) : Option Int :=
  match s.toList with
  | [] => none
  | cs => (cs.foldl (fun acc c => acc.bind fun n => (hexDigitValue c).map fun d => 16 * n + d)
      (some 0)).map Int.ofNat

/-- One criterion of the specification: `key` is present in `info`, its value parses as a
hexadecimal integer, and the integer equals `expected`. -/
def criterionHolds (toInt : String → Option Int) (info : QHash) (key : String)
    (expected : Int) : Prop :=
  ∃ s, info key = some s ∧ toInt s = some expected

/-! ## `HidController::open` (lines 199-253) -/

/-- What the driver answers to each of the three ways of opening the device, should it be
asked. -/
structure OpenAnswers where
  byPath : Option Handle
  bySerial : Option Handle
  byVendorProduct : Option Handle
deriving DecidableEq, Repr

/-- The effect list of `if (debugging()) qDebug() << ...`. -/
def debugLine (self : HidController) : List Effect :=
  if self.debugging then [Effect.qDebug] else []

/-- The member function `open`. -/
def HidController.open (self : HidController) (driver : OpenAnswers) : Outcome :=
  if self.isOpen then
    ⟨-1, self, [Effect.qDebug]⟩
  else
    -- Open device by path
    let e1 := debugLine self ++ [Effect.hid_open_path self.hid_path driver.byPath]
    let dev1 := driver.byPath
    -- If that fails, try to open device with vendor/product/serial #
    let (dev2, e2) :=
      if dev1 = none then
        (driver.bySerial,
          debugLine self ++
            [Effect.hid_open self.hid_vendor_id self.hid_product_id (some self.hid_serial)
              driver.bySerial])
      else (dev1, [])
    -- If it does fail, try without serial number
    let (dev3, e3) :=
      if dev2 = none then
        (driver.byVendorProduct,
          [Effect.qWarning Warning.unableToOpenSpecific,
            Effect.hid_open self.hid_vendor_id self.hid_product_id none driver.byVendorProduct])
      else (dev2, [])
    -- If that fails, we give up!
    if dev3 = none then
      ⟨-1, { self with m_pHidDevice := dev3 },
        e1 ++ e2 ++ e3 ++ [Effect.qWarning Warning.unableToOpen]⟩
    else
      let opened := HidController.setOpen { self with m_pHidDevice := dev3 } true
      let e4 := [Effect.setOpen true, Effect.startEngine]
      match self.m_pReader with
      | some _ =>
        ⟨0, opened, e1 ++ e2 ++ e3 ++ e4 ++ [Effect.qWarning Warning.readerAlreadyPresent]⟩
      | none =>
        ⟨0, { opened with m_pReader := some ⟨dev3⟩ },
          e1 ++ e2 ++ e3 ++ e4 ++
            [Effect.newHidReader dev3, Effect.setObjectName, Effect.connectReader,
              Effect.startReader]⟩

/-! ## `HidController::close` (lines 255-289) -/

/-- The member function `close`. -/
def HidController.close (self : HidController) : Outcome :=
  if !self.isOpen then
    ⟨-1, self, [Effect.qDebug]⟩
  else
    let e0 := [Effect.qDebug]
    -- Stop the reading thread
    let (stopped, e1) :=
      match self.m_pReader with
      | none => (self, [Effect.qWarning Warning.readerNotPresent])
      | some _ =>
        ({ self with m_pReader := none },
          [Effect.disconnectReader, Effect.stopReader,
            Effect.hid_set_nonblocking self.m_pHidDevice 1] ++
          debugLine self ++ [Effect.waitReader, Effect.deleteReader])
    -- Stop controller engine here to ensure it's done before the device is closed
    let e2 := [Effect.stopEngine]
    -- Close device
    let e3 := debugLine self ++ [Effect.hid_close self.m_pHidDevice, Effect.setOpen false]
    ⟨0, stopped.setOpen false, e0 ++ e1 ++ e2 ++ e3⟩

/-! ## `HidController::send` (lines 291-324) -/

/-- The conversion of an integer to `char`: its low 8 bits. -/
def toByte (i : Int) : Nat :=
  (i % 256).toNat

/-- The overload `send(QByteArray data, unsigned int reportID)`.  `result` is what the driver
returns from `hid_write`. -/
def HidController.send (self : HidController) (data : QByteArray) (reportID : Nat)
    (result : Int) : List Effect :=
  -- Append the Report ID to the beginning of data[] per the API..
  let data := reportID % 256 :: data
  [Effect.hid_write self.m_pHidDevice data] ++
    (if result = -1 then
      [Effect.hid_error self.m_pHidDevice, Effect.qWarning Warning.unableToSend]
    else debugLine self)

/-- The overload `send(QByteArray data)`. -/
def HidController.sendDefault (self : HidController) (data : QByteArray) (result : Int) :
    List Effect :=
  self.send data 0 result

/-- The overload `send(QList<int> data, unsigned int length, unsigned int reportID)`. -/
def HidController.sendList (self : HidController) (data : List Int) (_length : Nat)
    (reportID : Nat) (result : Int) : List Effect :=
  let temp : QByteArray := data.foldl (fun temp datum => temp ++ [toByte datum]) []
  self.send temp reportID result

/-! ## `HidReader::run` (lines 19-38) -/

/-- One turn of the loop as the reader thread sees it: the value of `m_stop` read by the loop
test, then (should the body run) the return value of `hid_read_timeout` and the contents of
the 255-byte buffer `data` when it returns. -/
structure Turn where
  m_stop : Int
  result : Int
  data : QByteArray
deriving DecidableEq, Repr

/-- The member function `run`: the list of the arguments of `emit incomingData(...)`, in
order, over the turns observed.  `run` stores 0 in `m_stop` before the loop, and `stop()` may
store 1 from another thread at any time, so what each loop test reads is an input.  The loop
ends at the first turn whose test reads a non-zero `m_stop`. -/
def HidReader.run : List Turn → List QByteArray
  | [] => []
  | turn :: rest =>
    if turn.m_stop = 0 then
      if turn.result > 0 then
        turn.data.take turn.result.toNat :: HidReader.run rest
      else
        HidReader.run rest
    else
      []

/-! ## Sequences of calls -/

/-- A call of `open()` (with the driver's answers) or of `close()`. -/
inductive Call where
  | open (driver : OpenAnswers)
  | close
deriving DecidableEq, Repr

/-- A controller together with every effect it has produced so far. -/
structure Session where
  ctl : HidController
  log : List Effect
deriving DecidableEq, Repr

/-- Performs one call. -/
def Session.step (s : Session) : Call → Session
  | Call.open driver => ⟨(s.ctl.open driver).ctl, s.log ++ (s.ctl.open driver).effects⟩
  | Call.close => ⟨s.ctl.close.ctl, s.log ++ s.ctl.close.effects⟩

/-- Performs the calls from left to right. -/
def Session.run (s : Session) (calls : List Call) : Session :=
  calls.foldl Session.step s

/-- The handles open at the driver after one more effect: a successful open adds its handle,
`hid_close` removes its argument. -/
def handleStep (live : List Handle) : Effect → List Handle
  | Effect.hid_open_path _ (some h) => h :: live
  | Effect.hid_open _ _ _ (some h) => h :: live
  | Effect.hid_close (some h) => live.erase h
  | _ => live

/-- The handles the driver has handed out and that have not been passed to `hid_close`,
after the effects `log`. -/
def liveHandles (log : List Effect) : List Handle :=
  log.foldl handleStep []

/-- The number of `HidReader` objects in existence after one more effect. -/
def readerStep (n : Int) : Effect → Int
  | Effect.newHidReader _ => n + 1
  | Effect.deleteReader => n - 1
  | _ => n

/-- The number of `HidReader` objects created and not yet deleted, after the effects `log`. -/
def liveReaders (log : List Effect) : Int :=
  log.foldl readerStep 0

/-- The calls of the driver's open functions among `effects`, in order. -/
def openAttempts (effects : List Effect) : List Effect :=
  effects.filter fun e =>
    match e with
    | Effect.hid_open_path _ _ => true
    | Effect.hid_open _ _ _ _ => true
    | _ => false

/-- The device pointers of the `HidReader`s created among `effects`, in order. -/
def readersCreated (effects : List Effect) : List (Option Handle) :=
  effects.filterMap fun e =>
    match e with
    | Effect.newHidReader device => some device
    | _ => none

/-- A session is reachable when it is what some sequence of `open()` and `close()` calls
makes of a freshly constructed controller. -/
def Reachable (s : Session) : Prop :=
  ∃ (d : hid_device_info) (debug : Bool) (uninit : Option Handle) (c0 : HidController)
    (calls : List Call),
    HidController.new d debug uninit = some c0 ∧ Session.run ⟨c0, []⟩ calls = s

/-- The invariant of the open/close state machine: a reader exists exactly while the
controller is open, it is the only one and reads the handle the controller holds, that
handle is the only one open at the driver, and neither inconsistency warning was logged. -/
def Session.Consistent (s : Session) : Prop :=
  Effect.qWarning Warning.readerAlreadyPresent ∉ s.log ∧
  Effect.qWarning Warning.readerNotPresent ∉ s.log ∧
  (s.ctl.m_bIsOpen = false →
    s.ctl.m_pReader = none ∧ liveReaders s.log = 0 ∧ liveHandles s.log = []) ∧
  (s.ctl.m_bIsOpen = true →
    ∃ h, s.ctl.m_pHidDevice = some h ∧ s.ctl.m_pReader = some ⟨some h⟩ ∧
      liveReaders s.log = 1 ∧ liveHandles s.log = [h])

/-- The calls to the driver and to the engine hooks, and every change of a reader or of the
open flag: the effects other than log lines and signal connections. -/
def Effect.isAction : Effect → Bool
  | Effect.qDebug => false
  | Effect.qWarning _ => false
  | Effect.setObjectName => false
  | Effect.connectReader => false
  | Effect.disconnectReader => false
  | _ => true

/-! ## Sample inputs -/

/-- An enumeration descriptor of a keyboard on a platform without interface numbers. -/
def sampleUsageDescriptor : hid_device_info :=
  ⟨"/dev/hidraw0", 0x46d, 0xc52b, some "A1B2C3", some "Logi", some "Receiver", 1, 6, -1⟩

/-- An enumeration descriptor on a platform with interface numbers. -/
def sampleInterfaceDescriptor : hid_device_info :=
  ⟨"0003:0004:02", 0x17cc, 0x1310, none, some "NI", some "Deck", 0xff01, 0x1, 2⟩

/-- The controller built from `sampleUsageDescriptor`. -/
def sampleUsageController : HidController :=
  { hid_interface_number := -1, hid_vendor_id := 0x46d, hid_product_id := 0xc52b,
    hid_usage_page := 1, hid_usage := 6, hid_path := "/dev/hidraw0", hid_serial := "A1B2C3",
    hid_manufacturer := "Logi", hid_product := "Receiver",
    m_sDeviceCategory := "Generic HID Keyboard", m_bIsOpen := false, m_bDebug := false,
    m_pHidDevice := none, m_pReader := none }

/-- The controller built from `sampleInterfaceDescriptor`. -/
def sampleInterfaceController : HidController :=
  { hid_interface_number := 2, hid_vendor_id := 0x17cc, hid_product_id := 0x1310,
    hid_usage_page := 0, hid_usage := 0, hid_path := "0003:0004:02", hid_serial := "",
    hid_manufacturer := "NI", hid_product := "Deck",
    m_sDeviceCategory := "HID Interface Number 0x2", m_bIsOpen := false, m_bDebug := true,
    m_pHidDevice := some 99, m_pReader := none }

/-- A controller in usage addressing whose usage is `0x8` (multi-axis controller). -/
def sampleMultiaxisController : HidController :=
  { sampleUsageController with hid_usage := 0x8, m_sDeviceCategory := "" }

/-- A controller in usage addressing whose usage `0x1f` is not in the table. -/
def sampleUnmappedController : HidController :=
  { sampleUsageController with hid_usage := 0x1f, m_sDeviceCategory := "" }

/-- The arguments of the calls of `hid_write` among `effects`, in order. -/
def driverWrites (effects : List Effect) : List (Option Handle × QByteArray) :=
  effects.filterMap fun e =>
    match e with
    | Effect.hid_write device data => some (device, data)
    | _ => none

/-- A buffer of 255 bytes: `0, 1, ..., 254`. -/
def sampleBuffer : QByteArray :=
  List.range 255

/-- Turns of the reader loop with reads of 1, 0, -1, 64 and 255 bytes. -/
def sampleTurns : List Turn :=
  [⟨0, 1, sampleBuffer⟩, ⟨0, 0, sampleBuffer⟩, ⟨0, -1, sampleBuffer⟩, ⟨0, 64, sampleBuffer⟩,
    ⟨0, 255, sampleBuffer⟩]

/-- Criteria that name the device of `sampleUsageController` by usage page and usage. -/
def sampleUsageCriteria : QHash := fun key =>
  if key = "vendor_id" then some "46d"
  else if key = "product_id" then some "C52B"
  else if key = "usage_page" then some "1"
  else if key = "usage" then some "6"
  else none

/-- Criteria that name the device of `sampleInterfaceController` by interface number, with a
stray usage entry. -/
def sampleInterfaceCriteria : QHash := fun key =>
  if key = "vendor_id" then some "17cc"
  else if key = "product_id" then some "1310"
  else if key = "interface_number" then some "2"
  else if key = "usage" then some "zz"
  else none

/-- Answers of a driver that opens the device by path, as handle 7. -/
def sampleByPath : OpenAnswers :=
  ⟨some 7, none, none⟩

/-- Answers of a driver that opens the device only by vendor and product id, as handle 9. -/
def sampleFallback : OpenAnswers :=
  ⟨none, none, some 9⟩

/-- Answers of a driver that cannot open the device. -/
def sampleUnavailable : OpenAnswers :=
  ⟨none, none, none⟩

/-- The session of `sampleUsageController` after one successful `open()`. -/
def sampleOpenSession : Session :=
  Session.run ⟨sampleUsageController, []⟩ [Call.open sampleByPath]

/-- The session of `sampleUsageController` after `open()` followed by `close()`. -/
def sampleClosedSession : Session :=
  Session.run ⟨sampleUsageController, []⟩ [Call.open sampleByPath, Call.close]

/-! ## Theorems -/

/-! ### The constructor -/

/-- C2: for every enumeration descriptor, the identity the constructor builds has the
descriptor's vendor and product ids; with `interface_number == -1` it has the descriptor's
usage page and usage and interface number `-1`; with `interface_number >= 0` it has that
interface number and usage page and usage `0`.  The constructor does build an identity
whenever the manufacturer and product strings are not `NULL`. -/
theorem constructor_addressing (d : hid_device_info) (debug : Bool) (uninit : Option Handle) :
    (d.manufacturer_string.isSome = true → d.product_string.isSome = true →
      (HidController.new d debug uninit).isSome = true) ∧
    ∀ c, HidController.new d debug uninit = some c →
      c.hid_vendor_id = d.vendor_id ∧ c.hid_product_id = d.product_id ∧
      (d.interface_number = -1 →
        c.hid_usage_page = d.usage_page ∧ c.hid_usage = d.usage ∧
          c.hid_interface_number = -1) ∧
      (d.interface_number ≥ 0 →
        c.hid_interface_number = d.interface_number ∧ c.hid_usage_page = 0 ∧
          c.hid_usage = 0) := by
  refine ⟨?_, ?_⟩
  · intro hm hp
    cases hms : d.manufacturer_string with
    | none => simp [hms] at hm
    | some m =>
      cases hps : d.product_string with
      | none => simp [hps] at hp
      | some q => simp [HidController.new, hms, hps]
  · intro c hc
    cases hms : d.manufacturer_string with
    | none => simp [HidController.new, hms] at hc
    | some m =>
      cases hps : d.product_string with
      | none => simp [HidController.new, hms, hps] at hc
      | some q =>
        simp only [HidController.new, hms, hps, Option.some.injEq] at hc
        subst hc
        by_cases hi : d.interface_number = -1
        · simp [HidController.guessDeviceCategory, hi]
        · simp [HidController.guessDeviceCategory, hi]

/-- C2 at the two sample descriptors: one in usage addressing, one with interface number 2. -/
theorem constructor_addressing_witness :
    HidController.new sampleUsageDescriptor false none = some sampleUsageController ∧
    HidController.new sampleInterfaceDescriptor true (some 99) = some sampleInterfaceController ∧
    (sampleUsageController.hid_usage_page = 1 ∧ sampleUsageController.hid_usage = 6 ∧
      sampleUsageController.hid_interface_number = -1) ∧
    (sampleInterfaceController.hid_interface_number = 2 ∧
      sampleInterfaceController.hid_usage_page = 0 ∧ sampleInterfaceController.hid_usage = 0) :=
  ⟨by decide, by decide,
    ((constructor_addressing sampleUsageDescriptor false none).2 sampleUsageController
      (by decide)).2.2.1 (by decide),
    ((constructor_addressing sampleInterfaceDescriptor true (some 99)).2
      sampleInterfaceController (by decide)).2.2.2 (by decide)⟩

/-! ### The device category -/

/-- Every character `%x` writes is a lowercase hexadecimal digit. -/
theorem digitChar_lowercase (d : Nat) (h : d < 16) :
    Nat.digitChar d ∈ "0123456789abcdef".toList := by
  interval_cases d <;> decide

/-- The digits accumulated by `Nat.toDigitsCore` in base 16 are lowercase hexadecimal. -/
theorem toDigitsCore_lowercase (fuel : Nat) :
    ∀ (n : Nat) (acc : List Char), (∀ c ∈ acc, c ∈ "0123456789abcdef".toList) →
      ∀ c ∈ Nat.toDigitsCore 16 fuel n acc, c ∈ "0123456789abcdef".toList := by
  induction fuel with
  | zero => intro n acc hacc c hc; simpa [Nat.toDigitsCore] using hacc c (by simpa [Nat.toDigitsCore] using hc)
  | succ f ih =>
    intro n acc hacc c hc
    have hd : Nat.digitChar (n % 16) ∈ "0123456789abcdef".toList :=
      digitChar_lowercase _ (Nat.mod_lt _ (by decide))
    have hacc2 : ∀ c ∈ Nat.digitChar (n % 16) :: acc, c ∈ "0123456789abcdef".toList := by
      intro c hc
      rcases List.mem_cons.mp hc with h | h
      · exact h ▸ hd
      · exact hacc c h
    unfold Nat.toDigitsCore at hc
    by_cases hz : n / 16 = 0
    · simp only [hz, if_true] at hc
      exact hacc2 c hc
    · simp only [hz, if_false] at hc
      exact ih _ _ hacc2 c hc

/-- The text `hexLower` writes consists of lowercase hexadecimal digits only. -/
theorem hexLower_lowercase (n : Nat) :
    ∀ c ∈ (hexLower n).toList, c ∈ "0123456789abcdef".toList := by
  intro c hc
  exact toDigitsCore_lowercase _ _ [] (by simp) c (by simpa [hexLower, Nat.toDigits] using hc)

/-- The text `hexLower` writes is not padded: a value below `16 ^ e` takes at most `e`
characters. -/
theorem hexLower_length (n e : Nat) (he : 0 < e) (hn : n < 16 ^ e) :
    (hexLower n).length ≤ e := by
  simpa [hexLower, Nat.toDigits, String.length] using
    Nat.toDigitsCore_length 16 (by decide) (n + 1) n e hn he

/-- C8, where the claim fails: with usage page `0x1` and usage `0x8` the category is not
"Generic HID " followed by "Multi-axis Controller". -/
theorem category_multiaxis_counterexample :
    sampleMultiaxisController.hid_interface_number = -1 ∧
    sampleMultiaxisController.hid_usage_page = 0x1 ∧
    sampleMultiaxisController.hid_usage = 0x8 ∧
    sampleMultiaxisController.guessDeviceCategory.m_sDeviceCategory
      = "Gereric HID Multiaxis Controller" ∧
    sampleMultiaxisController.guessDeviceCategory.m_sDeviceCategory
      ≠ "Generic HID " ++ "Multi-axis Controller" := by
  decide

/-- C8, amended: in usage addressing with usage page `0x1`, whatever the vendor and product
ids, usages `0x2`, `0x4`, `0x5`, `0x6` give "Generic HID Mouse", "Generic HID Joystick",
"Generic HID Gamepad", "Generic HID Keyboard"; usage `0x8` gives a category that ends in
" HID Multiaxis Controller"; every other usage gives "Unknown HID Desktop Device 0x1/0x"
followed by the usage in lowercase hexadecimal without padding. -/
theorem guessDeviceCategory_desktop (c : HidController)
    (hi : c.hid_interface_number = -1) (hp : c.hid_usage_page = 0x1) :
    (c.hid_usage = 0x2 → c.guessDeviceCategory.m_sDeviceCategory = "Generic HID Mouse") ∧
    (c.hid_usage = 0x4 → c.guessDeviceCategory.m_sDeviceCategory = "Generic HID Joystick") ∧
    (c.hid_usage = 0x5 → c.guessDeviceCategory.m_sDeviceCategory = "Generic HID Gamepad") ∧
    (c.hid_usage = 0x6 → c.guessDeviceCategory.m_sDeviceCategory = "Generic HID Keyboard") ∧
    (c.hid_usage = 0x8 →
      ∃ pre, c.guessDeviceCategory.m_sDeviceCategory = pre ++ " HID Multiaxis Controller") ∧
    (c.hid_usage ≠ 0x2 → c.hid_usage ≠ 0x4 → c.hid_usage ≠ 0x5 → c.hid_usage ≠ 0x6 →
      c.hid_usage ≠ 0x8 →
      c.guessDeviceCategory.m_sDeviceCategory
          = "Unknown HID Desktop Device 0x1/0x" ++ hexLower c.hid_usage ∧
        (∀ ch ∈ (hexLower c.hid_usage).toList, ch ∈ "0123456789abcdef".toList) ∧
        ∀ e, 0 < e → c.hid_usage < 16 ^ e → (hexLower c.hid_usage).length ≤ e) := by
  refine ⟨?_, ?_, ?_, ?_, ?_, ?_⟩
  · intro hu; simp [HidController.guessDeviceCategory, categoryInfo, hi, hp, hu]
  · intro hu; simp [HidController.guessDeviceCategory, categoryInfo, hi, hp, hu]
  · intro hu; simp [HidController.guessDeviceCategory, categoryInfo, hi, hp, hu]
  · intro hu; simp [HidController.guessDeviceCategory, categoryInfo, hi, hp, hu]
  · intro hu
    exact ⟨"Gereric", by simp [HidController.guessDeviceCategory, categoryInfo, hi, hp, hu]⟩
  · intro h2 h4 h5 h6 h8
    refine ⟨?_, hexLower_lowercase _, fun e he hlt => hexLower_length _ e he hlt⟩
    have h1 : hexLower 1 = "1" := by decide
    simp only [HidController.guessDeviceCategory, categoryInfo, hi, hp, if_true]
    have h2 : "Unknown HID Desktop Device 0x" ++ "1" ++ "/0x"
        = "Unknown HID Desktop Device 0x1/0x" := by decide
    rw [h1, h2]

/-- C8 amended, at a keyboard (usage `0x6`) and at the unmapped usage `0x1f`. -/
theorem guessDeviceCategory_desktop_witness :
    sampleUsageController.guessDeviceCategory.m_sDeviceCategory = "Generic HID Keyboard" ∧
    sampleUnmappedController.guessDeviceCategory.m_sDeviceCategory
      = "Unknown HID Desktop Device 0x1/0x1f" :=
  ⟨(guessDeviceCategory_desktop sampleUsageController (by decide) (by decide)).2.2.2.1
      (by decide),
    ((guessDeviceCategory_desktop sampleUnmappedController (by decide) (by decide)).2.2.2.2.2
      (by decide) (by decide) (by decide) (by decide) (by decide)).1.trans (by decide)⟩

/-! ### Sending -/

/-- The loop of the list overload appends the low 8 bits of each integer, in order. -/
theorem foldl_append_toByte (data : List Int) (acc : QByteArray) :
    data.foldl (fun temp datum => temp ++ [toByte datum]) acc = acc ++ data.map toByte := by
  induction data generalizing acc with
  | nil => simp
  | cons x xs ih => simp [ih]

/-- The low 8 bits of an integer: a value below 256 that differs from it by a multiple
of 256. -/
theorem toByte_spec (i : Int) : toByte i < 256 ∧ ((toByte i : Int) - i) % 256 = 0 := by
  unfold toByte
  have h0 : 0 ≤ i % 256 := Int.emod_nonneg _ (by decide)
  have h1 : i % 256 < 256 := Int.emod_lt_of_pos _ (by decide)
  refine ⟨by omega, ?_⟩
  rw [Int.toNat_of_nonneg h0]
  omega

/-- C6: for a report id in 0..255, `send(payload, reportId)` makes exactly one driver write,
of the byte `reportId` followed by the payload unchanged (one byte longer than the payload);
`send(reportId=5, payload=[1,2,3])` writes `[5,1,2,3]`.  The list overload writes what the
byte overload writes for the list with each integer cut to its low 8 bits, whatever `length`
is, and the overload without a report id writes with report id 0. -/
theorem send_writes_report (self : HidController) (payload : QByteArray) (reportId : Nat)
    (hid : reportId < 256) (result : Int) (data : List Int) (length : Nat) :
    driverWrites (self.send payload reportId result)
        = [(self.m_pHidDevice, reportId :: payload)] ∧
    (reportId :: payload).length = payload.length + 1 ∧
    driverWrites (self.send [1, 2, 3] 5 result) = [(self.m_pHidDevice, [5, 1, 2, 3])] ∧
    self.sendList data length reportId result
        = self.send (data.map toByte) reportId result ∧
    driverWrites (self.sendList data length reportId result)
        = [(self.m_pHidDevice, reportId :: data.map toByte)] ∧
    (∀ i ∈ data, toByte i < 256 ∧ ((toByte i : Int) - i) % 256 = 0) ∧
    driverWrites (self.sendDefault payload result) = [(self.m_pHidDevice, 0 :: payload)] := by
  have hw : ∀ (p : QByteArray) (r : Nat), r < 256 →
      driverWrites (self.send p r result) = [(self.m_pHidDevice, r :: p)] := by
    intro p r hr
    have hmod : r % 256 = r := Nat.mod_eq_of_lt hr
    by_cases hres : result = -1
    · simp [HidController.send, driverWrites, hmod, hres]
    · cases hd : self.m_bDebug <;>
        simp [HidController.send, driverWrites, debugLine, HidController.debugging, hmod,
          hres, hd]
  have hl : self.sendList data length reportId result
      = self.send (data.map toByte) reportId result := by
    simp [HidController.sendList, foldl_append_toByte]
  refine ⟨hw _ _ hid, by simp, hw _ _ (by decide), hl, ?_, fun i _ => toByte_spec i, ?_⟩
  · rw [hl]; exact hw _ _ hid
  · exact hw _ _ (by decide)

/-- C6 at report id 5 and payload `[1,2,3]`, and at the list `[257, -1, 3]` whose low bytes
are `[1, 255, 3]`. -/
theorem send_writes_report_witness :
    driverWrites (sampleUsageController.send [1, 2, 3] 5 4) = [(none, [5, 1, 2, 3])] ∧
    driverWrites (sampleUsageController.sendList [257, -1, 3] 0 5 (-1))
      = [(none, [5, 1, 255, 3])] :=
  ⟨(send_writes_report sampleUsageController [1, 2, 3] 5 (by decide) 4 [] 0).1,
    (send_writes_report sampleUsageController [] 5 (by decide) (-1) [257, -1, 3] 0).2.2.2.2.1⟩

/-! ### The reader loop -/

/-- A turn that reads `N > 0` delivers the first `N` bytes of the buffer. -/
theorem run_cons_pos (t : Turn) (l : List Turn) (hs : t.m_stop = 0) (hr : t.result > 0) :
    HidReader.run (t :: l) = t.data.take t.result.toNat :: HidReader.run l := by
  simp [HidReader.run, hs, hr]

/-- A turn that reads nothing, or fails, delivers nothing. -/
theorem run_cons_nonpos (t : Turn) (l : List Turn) (hs : t.m_stop = 0) (hr : ¬ t.result > 0) :
    HidReader.run (t :: l) = HidReader.run l := by
  simp only [HidReader.run, hs, if_true, hr, if_false]

/-- The loop delivers nothing more once its test reads a non-zero `m_stop`. -/
theorem run_nil_of_stop (rest : List Turn) (hrest : ∀ t, rest.head? = some t → t.m_stop ≠ 0) :
    HidReader.run rest = [] := by
  cases rest with
  | nil => rfl
  | cons t ts =>
    have ht : t.m_stop ≠ 0 := hrest t rfl
    simp [HidReader.run, ht]

/-- C7: for every finite sequence `turns` of read outcomes the loop sees before it stops
(the loop test read `m_stop == 0` before each, and then the loop ends or reads a non-zero
`m_stop`), the delivered events are, in order, the first `N` bytes of the buffer for each
outcome with return value `N > 0`: one event per such read, of length exactly `N` when
`N ≤ 255`, and none for an outcome with `N = 0` or `N < 0`. -/
theorem run_delivers (turns rest : List Turn)
    (hturns : ∀ t ∈ turns, t.m_stop = 0 ∧ t.data.length = 255 ∧ t.result ≤ 255)
    (hrest : ∀ t, rest.head? = some t → t.m_stop ≠ 0) :
    HidReader.run (turns ++ rest)
        = (turns.filter fun t => t.result > 0).map (fun t => t.data.take t.result.toNat) ∧
    (HidReader.run (turns ++ rest)).map (fun event => (event.length : Int))
        = (turns.filter fun t => t.result > 0).map (fun t => t.result) := by
  induction turns with
  | nil => simp [run_nil_of_stop rest hrest]
  | cons t ts ih =>
    have ht := hturns t (List.mem_cons_self _ _)
    have ih2 := ih (fun u hu => hturns u (List.mem_cons_of_mem _ hu))
    by_cases hpos : t.result > 0
    · have hlen : ((List.take t.result.toNat t.data).length : Int) = t.result := by
        rw [List.length_take, ht.2.1]
        omega
      have hf : (List.filter (fun t => decide (t.result > 0)) (t :: ts))
          = t :: List.filter (fun t => decide (t.result > 0)) ts :=
        List.filter_cons_of_pos (by simpa using hpos)
      rw [List.cons_append, run_cons_pos t _ ht.1 hpos, hf, List.map_cons, List.map_cons,
        List.map_cons, ih2.1, hlen]
      refine ⟨rfl, ?_⟩
      rw [← ih2.1, ih2.2]
    · have hf : (List.filter (fun t => decide (t.result > 0)) (t :: ts))
          = List.filter (fun t => decide (t.result > 0)) ts :=
        List.filter_cons_of_neg (by simpa using hpos)
      rw [List.cons_append, run_cons_nonpos t _ ht.1 hpos, hf]
      exact ih2

/-- C7 at reads of 1, 0, -1, 64 and 255 bytes followed by a turn that sees the stop flag:
three events, of lengths 1, 64 and 255. -/
theorem run_delivers_witness :
    HidReader.run (sampleTurns ++ [⟨1, 5, sampleBuffer⟩])
      = [sampleBuffer.take 1, sampleBuffer.take 64, sampleBuffer.take 255] ∧
    [sampleBuffer.take 1, sampleBuffer.take 64, sampleBuffer.take 255].map List.length
      = [1, 64, 255] :=
  ⟨(run_delivers sampleTurns [⟨1, 5, sampleBuffer⟩]
      (by simp [sampleTurns, sampleBuffer]) (by simp)).1.trans (by simp [sampleTurns]),
    by simp [sampleBuffer]⟩

/-! ### Matching -/

/-- The value `operator[]` returns: the stored one, or the empty string for an absent key. -/
theorem index_fst (info : QHash) (key : String) :
    (QHash.index info key).1 = (info key).getD "" := by
  unfold QHash.index
  cases info key <;> rfl

/-- The insertion `operator[]` may make leaves every other key as it was. -/
theorem index_snd_of_ne (info : QHash) (key k : String) (h : k ≠ key) :
    (QHash.index info key).2 k = info k := by
  unfold QHash.index
  cases info key <;> simp [h]

/-- A criterion depends on the entry under its own key only. -/
theorem criterionHolds_congr (toInt : String → Option Int) (info info2 : QHash) (key : String)
    (v : Int) (h : info2 key = info key) :
    criterionHolds toInt info2 key v ↔ criterionHolds toInt info key v := by
  unfold criterionHolds
  rw [h]

/-- Parsing what `operator[]` returns succeeds with `v` exactly when the criterion holds. -/
theorem toInt_index (toInt : String → Option Int) (hempty : toInt "" = none) (info : QHash)
    (key : String) (v : Int) :
    toInt (QHash.index info key).1 = some v ↔ criterionHolds toInt info key v := by
  rw [index_fst]
  unfold criterionHolds
  cases h : info key with
  | none => simp [hempty]
  | some s => simp

/-- The shape of `matchProductInfo` once the five conversions are named. -/
theorem checks_iff (x1 x2 x3 x4 x5 : Option Int) (v1 v2 v3 v4 v5 : Int) :
    (match x1 with
      | none => false
      | some value =>
        if v1 ≠ value then false
        else
          match x2 with
          | none => false
          | some value =>
            if v2 ≠ value then false
            else
              if v3 ≠ -1 then
                match x3 with
                | none => false
                | some value => if v3 ≠ value then false else true
              else
                match x4 with
                | none => false
                | some value =>
                  if v4 ≠ value then false
                  else
                    match x5 with
                    | none => false
                    | some value => if v5 ≠ value then false else true) = true ↔
      x1 = some v1 ∧ x2 = some v2 ∧
        (if v3 ≠ -1 then x3 = some v3 else x4 = some v4 ∧ x5 = some v5) := by
  by_cases h3 : v3 = -1
  · subst h3
    cases x1 <;> cases x2 <;> cases x4 <;> cases x5 <;> simp
    omega
  · cases x1 <;> cases x2 <;> cases x3 <;> simp [h3]
    omega

/-- The answer of `matchProductInfo` in terms of the criteria, for a conversion that rejects
the empty string. -/
theorem matchProductInfo_criteria (toInt : String → Option Int) (hempty : toInt "" = none)
    (c : HidController) (info : QHash) :
    c.matchProductInfo toInt info = true ↔
      criterionHolds toInt info "vendor_id" c.hid_vendor_id ∧
      criterionHolds toInt info "product_id" c.hid_product_id ∧
      (if c.hid_interface_number ≠ -1 then
        criterionHolds toInt info "interface_number" c.hid_interface_number
      else
        criterionHolds toInt info "usage_page" c.hid_usage_page ∧
          criterionHolds toInt info "usage" c.hid_usage) := by
  have k1 : (QHash.index info "vendor_id").2 "product_id" = info "product_id" :=
    index_snd_of_ne _ _ _ (by decide)
  have k2 : ∀ k, k ≠ "vendor_id" → k ≠ "product_id" →
      (QHash.index (QHash.index info "vendor_id").2 "product_id").2 k = info k := by
    intro k h1 h2
    rw [index_snd_of_ne _ _ _ h2, index_snd_of_ne _ _ _ h1]
  have k3 : (QHash.index (QHash.index (QHash.index info "vendor_id").2 "product_id").2
      "usage_page").2 "usage" = info "usage" := by
    rw [index_snd_of_ne _ _ _ (by decide), k2 _ (by decide) (by decide)]
  have e1 := fun v => toInt_index toInt hempty info "vendor_id" v
  have e2 := fun v => (toInt_index toInt hempty _ "product_id" v).trans
    (criterionHolds_congr toInt info _ "product_id" v k1)
  have e3 := fun v => (toInt_index toInt hempty _ "interface_number" v).trans
    (criterionHolds_congr toInt info _ "interface_number" v (k2 _ (by decide) (by decide)))
  have e4 := fun v => (toInt_index toInt hempty _ "usage_page" v).trans
    (criterionHolds_congr toInt info _ "usage_page" v (k2 _ (by decide) (by decide)))
  have e5 := fun v => (toInt_index toInt hempty _ "usage" v).trans
    (criterionHolds_congr toInt info _ "usage" v k3)
  rw [← e1, ← e2, ← e3, ← e4, ← e5]
  unfold HidController.matchProductInfo
  exact checks_iff _ _ _ _ _ _ _ _ _ _

/-- C1: for every identity and every criteria mapping, `matchProductInfo` returns true if
and only if `vendor_id` and `product_id` are present, parse as hexadecimal integers and equal
the identity's ids, and (a) with `interfaceNumber != -1`, `interface_number` is present,
parses and equals it, the `usage_page` and `usage` entries not being consulted, or (b) with
`interfaceNumber == -1`, `usage_page` and `usage` are present, parse and equal the identity's,
the `interface_number` entry not being consulted.  A missing or unparsable required entry
gives false.  (`toInt` is Qt's conversion, which rejects the empty string.) -/
theorem matchProductInfo_iff (toInt : String → Option Int) (hempty : toInt "" = none)
    (c : HidController) (info : QHash) :
    (c.matchProductInfo toInt info = true ↔
      criterionHolds toInt info "vendor_id" c.hid_vendor_id ∧
      criterionHolds toInt info "product_id" c.hid_product_id ∧
      (if c.hid_interface_number ≠ -1 then
        criterionHolds toInt info "interface_number" c.hid_interface_number
      else
        criterionHolds toInt info "usage_page" c.hid_usage_page ∧
          criterionHolds toInt info "usage" c.hid_usage)) ∧
    (c.hid_interface_number ≠ -1 → ∀ info2 : QHash,
      (∀ k, k ≠ "usage_page" → k ≠ "usage" → info2 k = info k) →
      c.matchProductInfo toInt info2 = c.matchProductInfo toInt info) ∧
    (c.hid_interface_number = -1 → ∀ info2 : QHash,
      (∀ k, k ≠ "interface_number" → info2 k = info k) →
      c.matchProductInfo toInt info2 = c.matchProductInfo toInt info) ∧
    (∀ key, (info key = none ∨ ∃ s, info key = some s ∧ toInt s = none) →
      (key = "vendor_id" ∨ key = "product_id" ∨
        (c.hid_interface_number ≠ -1 ∧ key = "interface_number") ∨
        (c.hid_interface_number = -1 ∧ (key = "usage_page" ∨ key = "usage"))) →
      c.matchProductInfo toInt info = false) := by
  have hbool : ∀ a b : Bool, (a = true ↔ b = true) → a = b := by
    intro a b h
    cases a <;> cases b <;> simp_all
  have hmiss : ∀ key v, (info key = none ∨ ∃ s, info key = some s ∧ toInt s = none) →
      ¬ criterionHolds toInt info key v := by
    rintro key v hk ⟨s, hs, hv⟩
    rcases hk with hk | ⟨s2, hs2, hn⟩
    · simp [hk] at hs
    · rw [hs] at hs2
      cases hs2
      simp [hv] at hn
  refine ⟨matchProductInfo_criteria toInt hempty c info, ?_, ?_, ?_⟩
  · intro hi info2 hagree
    apply hbool
    rw [matchProductInfo_criteria toInt hempty c info2,
      matchProductInfo_criteria toInt hempty c info]
    simp only [hi, ne_eq, not_false_eq_true, if_true]
    rw [criterionHolds_congr toInt info info2 "vendor_id" _ (hagree _ (by decide) (by decide)),
      criterionHolds_congr toInt info info2 "product_id" _ (hagree _ (by decide) (by decide)),
      criterionHolds_congr toInt info info2 "interface_number" _
        (hagree _ (by decide) (by decide))]
  · intro hi info2 hagree
    apply hbool
    rw [matchProductInfo_criteria toInt hempty c info2,
      matchProductInfo_criteria toInt hempty c info]
    simp only [hi, ne_eq, not_true_eq_false, if_false]
    rw [criterionHolds_congr toInt info info2 "vendor_id" _ (hagree _ (by decide)),
      criterionHolds_congr toInt info info2 "product_id" _ (hagree _ (by decide)),
      criterionHolds_congr toInt info info2 "usage_page" _ (hagree _ (by decide)),
      criterionHolds_congr toInt info info2 "usage" _ (hagree _ (by decide))]
  · intro key hk hreq
    cases hm : c.matchProductInfo toInt info with
    | false => rfl
    | true =>
      exfalso
      have h := (matchProductInfo_criteria toInt hempty c info).mp hm
      rcases hreq with rfl | rfl | ⟨hi, rfl⟩ | ⟨hi, rfl | rfl⟩
      · exact hmiss _ _ hk h.1
      · exact hmiss _ _ hk h.2.1
      · have h3 := h.2.2
        simp only [hi, ne_eq, not_false_eq_true, if_true] at h3
        exact hmiss _ _ hk h3
      · have h3 := h.2.2
        simp only [hi, ne_eq, not_true_eq_false, if_false] at h3
        exact hmiss _ _ hk h3.1
      · have h3 := h.2.2
        simp only [hi, ne_eq, not_true_eq_false, if_false] at h3
        exact hmiss _ _ hk h3.2

/-- C1 with a reader of plain hexadecimal digits: the sample criteria match their devices
(the interface-addressed one despite an unparsable `usage` entry), and do not match each
other's. -/
theorem matchProductInfo_iff_witness :
    parseHexDigits "" = none ∧
    sampleUsageController.matchProductInfo parseHexDigits sampleUsageCriteria = true ∧
    sampleInterfaceController.matchProductInfo parseHexDigits sampleInterfaceCriteria = true ∧
    sampleUsageController.matchProductInfo parseHexDigits sampleInterfaceCriteria = false ∧
    (sampleUsageController.matchProductInfo parseHexDigits sampleUsageCriteria = true ↔
      criterionHolds parseHexDigits sampleUsageCriteria "vendor_id" 0x46d ∧
      criterionHolds parseHexDigits sampleUsageCriteria "product_id" 0xc52b ∧
      (if sampleUsageController.hid_interface_number ≠ -1 then
        criterionHolds parseHexDigits sampleUsageCriteria "interface_number" (-1)
      else
        criterionHolds parseHexDigits sampleUsageCriteria "usage_page" 1 ∧
          criterionHolds parseHexDigits sampleUsageCriteria "usage" 6)) :=
  ⟨by decide, by decide, by decide, by decide,
    (matchProductInfo_iff parseHexDigits (by decide) sampleUsageController
      sampleUsageCriteria).1⟩

/-! ### The open/close state machine -/

/-- The live handles after more effects. -/
theorem liveHandles_append (log effects : List Effect) :
    liveHandles (log ++ effects) = effects.foldl handleStep (liveHandles log) := by
  simp [liveHandles, List.foldl_append]

/-- The live readers after more effects. -/
theorem liveReaders_append (log effects : List Effect) :
    liveReaders (log ++ effects) = effects.foldl readerStep (liveReaders log) := by
  simp [liveReaders, List.foldl_append]

/-- A freshly constructed controller is consistent. -/
theorem consistent_new (d : hid_device_info) (debug : Bool) (uninit : Option Handle)
    (c0 : HidController) (h : HidController.new d debug uninit = some c0) :
    Session.Consistent ⟨c0, []⟩ := by
  cases hm : d.manufacturer_string with
  | none => simp [HidController.new, hm] at h
  | some m =>
    cases hp : d.product_string with
    | none => simp [HidController.new, hm, hp] at h
    | some q =>
      simp only [HidController.new, hm, hp, Option.some.injEq] at h
      subst h
      simp [Session.Consistent, HidController.guessDeviceCategory, Controller.initiallyOpen,
        liveReaders, liveHandles]

/-- One call of `open()` keeps a session consistent. -/
theorem consistent_open (s : Session) (driver : OpenAnswers) (hs : s.Consistent) :
    (s.step (Call.open driver)).Consistent := by
  obtain ⟨ctl, log⟩ := s
  obtain ⟨h1, h2, hc, ho⟩ := hs
  simp only at h1 h2 hc ho
  cases hopen : ctl.m_bIsOpen with
  | true =>
    obtain ⟨h, hd, hr, hlr, hlh⟩ := ho hopen
    refine ⟨?_, ?_, ?_, ?_⟩ <;>
      simp_all [Session.step, HidController.open, HidController.isOpen, liveReaders_append,
        liveHandles_append, readerStep, handleStep]
  | false =>
    obtain ⟨hr, hlr, hlh⟩ := hc hopen
    obtain ⟨p, q, r⟩ := driver
    cases hdbg : ctl.m_bDebug <;> cases p <;> cases q <;> cases r <;>
      simp [Session.Consistent, Session.step, HidController.open, HidController.isOpen,
        HidController.setOpen, HidController.debugging, debugLine, liveReaders_append,
        liveHandles_append, readerStep, handleStep, hopen, hr, hlr, hlh, hdbg, h1, h2]

/-- One call of `close()` keeps a session consistent. -/
theorem consistent_close (s : Session) (hs : s.Consistent) :
    (s.step Call.close).Consistent := by
  obtain ⟨ctl, log⟩ := s
  obtain ⟨h1, h2, hc, ho⟩ := hs
  simp only at h1 h2 hc ho
  cases hopen : ctl.m_bIsOpen with
  | false =>
    obtain ⟨hr, hlr, hlh⟩ := hc hopen
    refine ⟨?_, ?_, ?_, ?_⟩ <;>
      simp_all [Session.step, HidController.close, HidController.isOpen, liveReaders_append,
        liveHandles_append, readerStep, handleStep]
  | true =>
    obtain ⟨h, hd, hr, hlr, hlh⟩ := ho hopen
    cases hdbg : ctl.m_bDebug <;>
      simp [Session.Consistent, Session.step, HidController.close, HidController.isOpen,
        HidController.setOpen, HidController.debugging, debugLine, liveReaders_append,
        liveHandles_append, readerStep, handleStep, hopen, hr, hd, hlr, hlh, hdbg, h1, h2]

/-- Any sequence of calls keeps a session consistent. -/
theorem consistent_run (calls : List Call) :
    ∀ s : Session, s.Consistent → (s.run calls).Consistent := by
  induction calls with
  | nil => intro s hs; exact hs
  | cons call rest ih =>
    intro s hs
    have hstep : (s.step call).Consistent := by
      cases call with
      | «open» driver => exact consistent_open s driver hs
      | close => exact consistent_close s hs
    exact ih _ hstep

/-- Every reachable session is consistent. -/
theorem consistent_of_reachable (s : Session) (hs : Reachable s) : s.Consistent := by
  obtain ⟨d, debug, uninit, c0, calls, hnew, hrun⟩ := hs
  rw [← hrun]
  exact consistent_run calls _ (consistent_new d debug uninit c0 hnew)

/-- The sample sessions are reachable. -/
theorem reachable_samples :
    Reachable ⟨sampleUsageController, []⟩ ∧ Reachable sampleOpenSession ∧
      Reachable sampleClosedSession :=
  ⟨⟨sampleUsageDescriptor, false, none, sampleUsageController, [], by decide, rfl⟩,
    ⟨sampleUsageDescriptor, false, none, sampleUsageController, [Call.open sampleByPath],
      by decide, rfl⟩,
    ⟨sampleUsageDescriptor, false, none, sampleUsageController,
      [Call.open sampleByPath, Call.close], by decide, rfl⟩⟩

/-- C9, where the claim fails: after `open()` succeeds by path with handle 7 and `close()`
returns, the controller is Closed and its device pointer is still handle 7, not null. -/
theorem closed_handle_counterexample :
    Session.run ⟨sampleUsageController, []⟩ [Call.open sampleByPath, Call.close]
      = sampleClosedSession ∧
    HidController.new sampleUsageDescriptor false none = some sampleUsageController ∧
    sampleClosedSession.ctl.isOpen = false ∧
    sampleClosedSession.ctl.m_pHidDevice = some 7 ∧
    sampleClosedSession.ctl.m_pHidDevice ≠ none := by
  decide

/-- C9, amended: in every state reachable from a freshly constructed controller by `open()`
and `close()` calls, whatever the driver answers, no device handle is open at the driver
whenever the state is Closed (every handle the driver handed out has been passed to
`hid_close`), and while the state is Open the controller holds the one handle that is open.
`close()` leaves the pointer member as it was. -/
theorem closed_holds_no_live_handle (s : Session) (hs : Reachable s) :
    (s.ctl.isOpen = false → liveHandles s.log = []) ∧
    (s.ctl.isOpen = true → ∃ h, s.ctl.m_pHidDevice = some h ∧ liveHandles s.log = [h]) ∧
    s.ctl.close.ctl.m_pHidDevice = s.ctl.m_pHidDevice := by
  obtain ⟨_, _, hc, ho⟩ := consistent_of_reachable s hs
  refine ⟨fun h => (hc h).2.2, fun h => ?_, ?_⟩
  · obtain ⟨x, hd, _, _, hl⟩ := ho h
    exact ⟨x, hd, hl⟩
  · unfold HidController.close
    cases s.ctl.isOpen <;> cases s.ctl.m_pReader <;> simp [HidController.setOpen]

/-- C9 amended, after `open()` by path and `close()`: no handle is left open. -/
theorem closed_holds_no_live_handle_witness :
    Reachable sampleClosedSession ∧ sampleClosedSession.ctl.isOpen = false ∧
      liveHandles sampleClosedSession.log = [] :=
  ⟨reachable_samples.2.2, by decide,
    (closed_holds_no_live_handle sampleClosedSession reachable_samples.2.2).1 (by decide)⟩

/-- C10: in every state reachable from a freshly constructed controller by `open()` and
`close()` calls, whatever the driver answers, a reader is present if and only if the state
is Open, and the number of readers in existence is one when Open and zero when Closed; the
"already present" warning of `open()` and the "not present" warning of `close()` were never
logged; and from a Closed state an `open()` that the driver grants succeeds with a newly
created reader on the handle obtained. -/
theorem reader_iff_open (s : Session) (hs : Reachable s) :
    (s.ctl.m_pReader.isSome = s.ctl.isOpen) ∧
    liveReaders s.log = (if s.ctl.isOpen then 1 else 0) ∧
    liveReaders s.log ≤ 1 ∧
    Effect.qWarning Warning.readerAlreadyPresent ∉ s.log ∧
    Effect.qWarning Warning.readerNotPresent ∉ s.log ∧
    (s.ctl.isOpen = false → ∀ (driver : OpenAnswers) (h : Handle),
      (driver.byPath = some h ∨ (driver.byPath = none ∧ driver.bySerial = some h) ∨
        (driver.byPath = none ∧ driver.bySerial = none ∧ driver.byVendorProduct = some h)) →
      (s.ctl.open driver).ret = 0 ∧
      (s.ctl.open driver).ctl.isOpen = true ∧
      (s.ctl.open driver).ctl.m_pReader = some ⟨some h⟩ ∧
      readersCreated (s.ctl.open driver).effects = [some h] ∧
      Reachable (s.step (Call.open driver))) := by
  obtain ⟨h1, h2, hc, ho⟩ := consistent_of_reachable s hs
  have hreach : ∀ driver, Reachable (s.step (Call.open driver)) := by
    intro driver
    obtain ⟨d, debug, uninit, c0, calls, hnew, hrun⟩ := hs
    refine ⟨d, debug, uninit, c0, calls ++ [Call.open driver], hnew, ?_⟩
    simp [Session.run, List.foldl_append] at hrun ⊢
    rw [hrun]
  cases hopen : s.ctl.m_bIsOpen with
  | true =>
    obtain ⟨h, hd, hr, hlr, hlh⟩ := ho hopen
    simp [HidController.isOpen, hopen, hr, hlr, h1, h2]
  | false =>
    obtain ⟨hr, hlr, hlh⟩ := hc hopen
    refine ⟨by simp [HidController.isOpen, hopen, hr], by simp [HidController.isOpen, hopen, hlr],
      by simp [hlr], h1, h2, ?_⟩
    intro _ driver h hdrv
    obtain ⟨p, q, r⟩ := driver
    refine ⟨?_, ?_, ?_, ?_, hreach _⟩ <;>
    · simp only at hdrv
      rcases hdrv with rfl | ⟨rfl, rfl⟩ | ⟨rfl, rfl, rfl⟩ <;>
        cases hdbg : s.ctl.m_bDebug <;>
        simp [HidController.open, HidController.isOpen, HidController.setOpen,
          HidController.debugging, debugLine, readersCreated, hopen, hr, hdbg]

/-- C10 after `open()` and `close()`: no reader is left, and reopening (here through the
vendor/product fallback, handle 9) creates a new one. -/
theorem reader_iff_open_witness :
    Reachable sampleClosedSession ∧
    sampleClosedSession.ctl.m_pReader = none ∧ sampleClosedSession.ctl.isOpen = false ∧
    liveReaders sampleClosedSession.log = 0 ∧
    (sampleClosedSession.ctl.open sampleFallback).ctl.m_pReader = some ⟨some 9⟩ :=
  ⟨reachable_samples.2.2, by decide, by decide, by decide,
    ((reader_iff_open sampleClosedSession reachable_samples.2.2).2.2.2.2.2 (by decide)
      sampleFallback 9 (Or.inr (Or.inr ⟨rfl, rfl, rfl⟩))).2.2.1⟩

/-- C3: for every `open()` on a Closed controller (in a reachable state), with the driver's
answers `driver`: the strategies are tried in the order path, (vendor, product, serial),
(vendor, product), and none after the first that succeeds; the call returns 0 if and only
if one of them succeeds, and -1 otherwise.  On success the state is Open, the engine start
hook ran once, and exactly one reader was created, on the handle obtained, and started.
The fallback warning is logged exactly when the path and the serial strategies both failed.
When all three fail the state stays Closed, no engine hook runs and no reader is created. -/
theorem open_strategies (s : Session) (hs : Reachable s) (hclosed : s.ctl.isOpen = false)
    (driver : OpenAnswers) :
    (∀ h, driver.byPath = some h →
      openAttempts (s.ctl.open driver).effects
          = [Effect.hid_open_path s.ctl.hid_path (some h)] ∧
        (s.ctl.open driver).ctl.m_pHidDevice = some h) ∧
    (∀ h, driver.byPath = none → driver.bySerial = some h →
      openAttempts (s.ctl.open driver).effects
          = [Effect.hid_open_path s.ctl.hid_path none,
              Effect.hid_open s.ctl.hid_vendor_id s.ctl.hid_product_id
                (some s.ctl.hid_serial) (some h)] ∧
        (s.ctl.open driver).ctl.m_pHidDevice = some h) ∧
    (driver.byPath = none → driver.bySerial = none →
      openAttempts (s.ctl.open driver).effects
          = [Effect.hid_open_path s.ctl.hid_path none,
              Effect.hid_open s.ctl.hid_vendor_id s.ctl.hid_product_id
                (some s.ctl.hid_serial) none,
              Effect.hid_open s.ctl.hid_vendor_id s.ctl.hid_product_id none
                driver.byVendorProduct] ∧
        (s.ctl.open driver).ctl.m_pHidDevice = driver.byVendorProduct) ∧
    ((s.ctl.open driver).ret = 0 ↔
      (driver.byPath.isSome = true ∨ driver.bySerial.isSome = true ∨
        driver.byVendorProduct.isSome = true)) ∧
    ((s.ctl.open driver).ret = 0 →
      (s.ctl.open driver).ctl.isOpen = true ∧
      (s.ctl.open driver).effects.count Effect.startEngine = 1 ∧
      (s.ctl.open driver).ctl.m_pReader = some ⟨(s.ctl.open driver).ctl.m_pHidDevice⟩ ∧
      readersCreated (s.ctl.open driver).effects = [(s.ctl.open driver).ctl.m_pHidDevice] ∧
      (s.ctl.open driver).effects.count Effect.startReader = 1) ∧
    (Effect.qWarning Warning.unableToOpenSpecific ∈ (s.ctl.open driver).effects ↔
      (driver.byPath = none ∧ driver.bySerial = none)) ∧
    ((s.ctl.open driver).effects.count (Effect.qWarning Warning.unableToOpenSpecific) ≤ 1) ∧
    ((s.ctl.open driver).ret ≠ 0 →
      (s.ctl.open driver).ret = -1 ∧
      (s.ctl.open driver).ctl.isOpen = false ∧
      Effect.startEngine ∉ (s.ctl.open driver).effects ∧
      Effect.stopEngine ∉ (s.ctl.open driver).effects ∧
      readersCreated (s.ctl.open driver).effects = [] ∧
      (s.ctl.open driver).ctl.m_pReader = none) := by
  obtain ⟨_, _, hc, _⟩ := consistent_of_reachable s hs
  have hopen : s.ctl.m_bIsOpen = false := hclosed
  obtain ⟨hr, _, _⟩ := hc hopen
  obtain ⟨p, q, r⟩ := driver
  cases hdbg : s.ctl.m_bDebug <;> cases p <;> cases q <;> cases r <;>
    simp [HidController.open, HidController.isOpen, HidController.setOpen,
      HidController.debugging, debugLine, readersCreated, openAttempts, hopen, hr, hdbg]

/-- C3 on the fresh sample controller when only the vendor/product fallback succeeds (handle
9): three attempts in order, success, and the fallback warning. -/
theorem open_strategies_witness :
    Reachable ⟨sampleUsageController, []⟩ ∧ sampleUsageController.isOpen = false ∧
    openAttempts (sampleUsageController.open sampleFallback).effects
      = [Effect.hid_open_path "/dev/hidraw0" none,
          Effect.hid_open 0x46d 0xc52b (some "A1B2C3") none,
          Effect.hid_open 0x46d 0xc52b none (some 9)] ∧
    (sampleUsageController.open sampleFallback).ctl.m_pHidDevice = some 9 ∧
    (sampleUsageController.open sampleFallback).ret = 0 ∧
    Effect.qWarning Warning.unableToOpenSpecific
      ∈ (sampleUsageController.open sampleFallback).effects :=
  ⟨reachable_samples.1, by decide,
    ((open_strategies ⟨sampleUsageController, []⟩ reachable_samples.1 (by decide)
      sampleFallback).2.2.1 rfl rfl).1,
    by decide, by decide, by decide⟩

/-- Whatever precedes the first occurrence of `x` in a list precedes every occurrence. -/
theorem mem_of_mem_takeWhile_split (x y : Effect) (post : List Effect) :
    ∀ pre : List Effect, y ∈ (pre ++ x :: post).takeWhile (fun e => decide (e ≠ x)) →
      y ∈ pre := by
  intro pre
  induction pre with
  | nil => intro h; simp [List.takeWhile] at h
  | cons a rest ih =>
    intro h
    by_cases ha : a = x
    · simp [List.takeWhile, ha] at h
    · simp only [List.cons_append, List.takeWhile, ne_eq, ha, not_false_eq_true,
        decide_True, List.mem_cons] at h
      rcases h with h | h
      · exact h ▸ List.mem_cons_self _ _
      · exact List.mem_cons_of_mem _ (ih (by simpa using h))

/-- C4: for every Open controller that has a reader, `close()` performs, in this order: set
the reader's stop flag, switch the device handle to non-blocking mode, wait for the reader
to terminate, release the reader, invoke the engine stop hook, release the device handle,
set the state to Closed; it returns 0.  Whatever precedes the release of the handle
includes the wait for the reader and the engine stop hook. -/
theorem close_order (c : HidController) (reader : HidReader) (hopen : c.isOpen = true)
    (hreader : c.m_pReader = some reader) :
    c.close.effects
      = [Effect.qDebug, Effect.disconnectReader, Effect.stopReader,
          Effect.hid_set_nonblocking c.m_pHidDevice 1] ++ debugLine c ++
        [Effect.waitReader, Effect.deleteReader, Effect.stopEngine] ++ debugLine c ++
        [Effect.hid_close c.m_pHidDevice, Effect.setOpen false] ∧
    c.close.effects.filter Effect.isAction
      = [Effect.stopReader, Effect.hid_set_nonblocking c.m_pHidDevice 1, Effect.waitReader,
          Effect.deleteReader, Effect.stopEngine, Effect.hid_close c.m_pHidDevice,
          Effect.setOpen false] ∧
    c.close.ret = 0 ∧
    c.close.ctl.isOpen = false ∧
    c.close.ctl.m_pReader = none ∧
    (∀ pre post, c.close.effects = pre ++ Effect.hid_close c.m_pHidDevice :: post →
      Effect.waitReader ∈ pre ∧ Effect.stopEngine ∈ pre) := by
  have hopen2 : c.m_bIsOpen = true := hopen
  have heff : c.close.effects
      = [Effect.qDebug, Effect.disconnectReader, Effect.stopReader,
          Effect.hid_set_nonblocking c.m_pHidDevice 1] ++ debugLine c ++
        [Effect.waitReader, Effect.deleteReader, Effect.stopEngine] ++ debugLine c ++
        [Effect.hid_close c.m_pHidDevice, Effect.setOpen false] := by
    simp [HidController.close, HidController.isOpen, hopen2, hreader]
  refine ⟨heff, ?_, ?_, ?_, ?_, ?_⟩
  · rw [heff]
    cases hdbg : c.m_bDebug <;>
      simp [debugLine, HidController.debugging, hdbg, Effect.isAction]
  · simp [HidController.close, HidController.isOpen, hopen2]
  · simp [HidController.close, HidController.isOpen, HidController.setOpen, hopen2]
  · simp [HidController.close, HidController.isOpen, HidController.setOpen, hopen2, hreader]
  · intro pre post hsplit
    have hw : ∀ y, y ∈ c.close.effects.takeWhile
        (fun e => decide (e ≠ Effect.hid_close c.m_pHidDevice)) → y ∈ pre := by
      intro y hy
      rw [hsplit] at hy
      exact mem_of_mem_takeWhile_split _ _ _ _ hy
    constructor <;>
    · apply hw
      rw [heff]
      cases hdbg : c.m_bDebug <;>
        simp [debugLine, HidController.debugging, hdbg, List.takeWhile]

/-- C4 on the sample controller after a successful `open()`. -/
theorem close_order_witness :
    sampleOpenSession.ctl.isOpen = true ∧
    sampleOpenSession.ctl.m_pReader = some ⟨some 7⟩ ∧
    sampleOpenSession.ctl.close.effects.filter Effect.isAction
      = [Effect.stopReader, Effect.hid_set_nonblocking (some 7) 1, Effect.waitReader,
          Effect.deleteReader, Effect.stopEngine, Effect.hid_close (some 7),
          Effect.setOpen false] :=
  ⟨by decide, by decide,
    (close_order sampleOpenSession.ctl ⟨some 7⟩ (by decide) (by decide)).2.1⟩

/-- C5: `open()` on an Open controller and `close()` on a Closed controller return -1,
leave the controller (open flag, handle, reader) as it was, and make no driver call and no
engine hook call: their only effect is a debug line.  Hence after a successful `open()`
followed by `close()`, a second `close()` returns -1 with no further effect. -/
theorem sequencing_violations (c : HidController) (driver : OpenAnswers) :
    (c.isOpen = true →
      c.open driver = ⟨-1, c, [Effect.qDebug]⟩ ∧
        (c.open driver).effects.filter Effect.isAction = []) ∧
    (c.isOpen = false →
      c.close = ⟨-1, c, [Effect.qDebug]⟩ ∧ c.close.effects.filter Effect.isAction = []) ∧
    (c.isOpen = false → (c.open driver).ret = 0 →
      (c.open driver).ctl.close.ret = 0 ∧
      (c.open driver).ctl.close.ctl.close
        = ⟨-1, (c.open driver).ctl.close.ctl, [Effect.qDebug]⟩ ∧
      (c.open driver).ctl.close.ctl.close.effects.filter Effect.isAction = []) := by
  have hclose : ∀ k : HidController, k.isOpen = false →
      k.close = ⟨-1, k, [Effect.qDebug]⟩ ∧ k.close.effects.filter Effect.isAction = [] := by
    intro k hk
    have hk2 : k.m_bIsOpen = false := hk
    simp [HidController.close, HidController.isOpen, hk2, Effect.isAction]
  have hclosed : ∀ k : HidController, k.isOpen = true → k.close.ret = 0 ∧
      k.close.ctl.isOpen = false := by
    intro k hk
    have hk2 : k.m_bIsOpen = true := hk
    cases hrd : k.m_pReader <;>
      simp [HidController.close, HidController.isOpen, HidController.setOpen, hk2, hrd]
  refine ⟨?_, hclose c, ?_⟩
  · intro h
    have h2 : c.m_bIsOpen = true := h
    simp [HidController.open, HidController.isOpen, h2, Effect.isAction]
  · intro h hret
    have h2 : c.m_bIsOpen = false := h
    have hop : (c.open driver).ctl.isOpen = true := by
      obtain ⟨p, q, r⟩ := driver
      cases p <;> cases q <;> cases r <;> cases hrd : c.m_pReader <;>
        simp_all [HidController.open, HidController.isOpen, HidController.setOpen]
    exact ⟨(hclosed _ hop).1, hclose _ (hclosed _ hop).2⟩

/-- C5 on the sample sessions: `open()` on the opened controller and `close()` on the closed
one change nothing and return -1. -/
theorem sequencing_violations_witness :
    sampleOpenSession.ctl.isOpen = true ∧ sampleClosedSession.ctl.isOpen = false ∧
    sampleOpenSession.ctl.open sampleFallback = ⟨-1, sampleOpenSession.ctl, [Effect.qDebug]⟩ ∧
    sampleClosedSession.ctl.close = ⟨-1, sampleClosedSession.ctl, [Effect.qDebug]⟩ :=
  ⟨by decide, by decide,
    ((sequencing_violations sampleOpenSession.ctl sampleFallback).1 (by decide)).1,
    ((sequencing_violations sampleClosedSession.ctl sampleFallback).2.1 (by decide)).1⟩

end Hid
